import Mathlib

/-!
Shallow embedding of the NewsCollector filtering / classification /
deduplication pipeline (`src/smart_filter.py`, `src/news_collector.py`,
`src/config.py`) and proofs about it.

Python strings are modelled as `List Char`; Python's `in` (substring test),
`str.count` (non-overlapping occurrence count), `str.replace`
(left-to-right non-overlapping replacement), `str.lower`, `str.split` are
modelled by the executable functions below.  Python float arithmetic in the
scorer is modelled by exact rational arithmetic (`ℚ`).  The time-dependent
and external-library timestamp parsing inside
`SmartFilter.calculate_freshness_score` (dateutil / email.utils /
`datetime.now()`) is abstracted as an explicit parameter
`parseHours : Str → Option ℚ` giving the hours elapsed since publication,
`none` when parsing raises; everything around it is translated from the
source.
-/

set_option maxRecDepth 4000

abbrev Str := List Char

/-- Characters of a string literal. -/
def lc (s : String) : Str := s.data

/-- Python `str.lower` (the texts in this code base are ASCII + Hangul, on
which per-character ASCII lowercasing agrees with Python). -/
def pyLower (s : Str) : Str := s.map Char.toLower

/-- Python `needle in hay` substring test. -/
def isSubstr (p : Str) : Str → Bool
  | [] => p.isEmpty
  | c :: rest => p.isPrefixOf (c :: rest) || isSubstr p rest

/-- Auxiliary loop for `countSub` (pattern known non-empty). -/
def countSubPos (p : Str) : Str → Nat
  | [] => 0
  | c :: rest =>
    if h : p ≠ [] ∧ p.isPrefixOf (c :: rest) then
      countSubPos p ((c :: rest).drop p.length) + 1
    else
      countSubPos p rest
termination_by s => s.length
decreasing_by
  · simp only [List.length_drop, List.length_cons]
    have hp : 1 ≤ p.length := by
      cases p with
      | nil => exact absurd rfl h.1
      | cons a l => simp
    omega
  · simp

/-- Python `hay.count(p)`: non-overlapping occurrences, scanned left to
right. -/
def countSub (p s : Str) : Nat :=
  if p = [] then s.length + 1 else countSubPos p s

/-- Python `s.replace(old, new)`: left-to-right non-overlapping replacement
(all the patterns used in this code base are non-empty). -/
def replaceSub (p r : Str) : Str → Str
  | [] => []
  | c :: rest =>
    if h : p ≠ [] ∧ p.isPrefixOf (c :: rest) then
      r ++ replaceSub p r ((c :: rest).drop p.length)
    else
      c :: replaceSub p r rest
termination_by s => s.length
decreasing_by
  · simp only [List.length_drop, List.length_cons]
    have hp : 1 ≤ p.length := by
      cases p with
      | nil => exact absurd rfl h.1
      | cons a l => simp
    omega
  · simp

lemma dropWhile_len_le (p : Char → Bool) : ∀ l : Str, (List.dropWhile p l).length ≤ l.length
  | [] => le_rfl
  | c :: rest => by
    rw [List.dropWhile_cons]
    split
    · exact le_trans (dropWhile_len_le p rest) (Nat.le_succ _)
    · simp

/-- Python `str.split()` with no argument: split on whitespace runs,
dropping empty pieces. -/
def pySplit : Str → List Str
  | [] => []
  | c :: rest =>
    if c.isWhitespace then pySplit rest
    else
      (c :: rest).takeWhile (fun d => !d.isWhitespace) ::
        pySplit ((c :: rest).dropWhile (fun d => !d.isWhitespace))
termination_by s => s.length
decreasing_by
  · simp
  · rename_i h
    rw [List.dropWhile_cons]
    simp only [h, Bool.not_false, if_true, List.length_cons]
    exact Nat.lt_succ_of_le (dropWhile_len_le _ rest)

/-- Python `" ".join(words)`. -/
def joinSpace : List Str → Str
  | [] => []
  | [w] => w
  | w :: x :: rest => w ++ ' ' :: joinSpace (x :: rest)

/-- Python `max(a, b)` on rationals (kernel-evaluable, unlike the lattice
operation). -/
def pyMax (a b : ℚ) : ℚ := if a < b then b else a

/-- Python `min(a, b)` on rationals. -/
def pyMin (a b : ℚ) : ℚ := if b < a then b else a

lemma pyMax_eq_max (a b : ℚ) : pyMax a b = max a b := by
  unfold pyMax
  split
  · exact (max_eq_right (le_of_lt (by assumption))).symm
  · exact (max_eq_left (le_of_not_lt (by assumption))).symm

lemma pyMin_eq_min (a b : ℚ) : pyMin a b = min a b := by
  unfold pyMin
  split
  · exact (min_eq_right (le_of_lt (by assumption))).symm
  · exact (min_eq_left (le_of_not_lt (by assumption))).symm

/-- A collected record (`article` dict in the source).  Missing `title` /
`snippet` / `link` are the empty string (`article.get(..., '')`); the
`published` field is optional; `type` is `'domestic'` or `'global'`. -/
structure Article where
  title : Str
  snippet : Str
  link : Str
  source : Str
  published : Option Str
  type : Str
deriving Repr, DecidableEq

/-! ## SmartFilter (src/smart_filter.py) -/

/-- `SmartFilter.calculate_competitor_bonus` (src/smart_filter.py:181). -/
def calculate_competitor_bonus (title snippet : Str) : ℚ :=
  let combined := pyLower (title ++ lc " " ++ snippet)
  let has_kt := isSubstr (lc "kt") combined || isSubstr (lc "kt-") combined
  let has_lgu := isSubstr (lc "lgu+") combined || isSubstr (lc "lg유플러스") combined
  let has_skt := isSubstr (lc "skt") combined || isSubstr (lc "sk텔레콤") combined
  let bonus : ℚ :=
    (if has_kt || has_lgu then 30 else 0) + (if has_skt then -10 else 0)
  pyMax bonus 0

lemma bonus_arith (k1 k2 l1 l2 s1 s2 : Bool) :
    pyMax ((if (k1 || k2) || (l1 || l2) then (30:ℚ) else 0) +
        (if s1 || s2 then (-10:ℚ) else 0)) 0 =
      (if ((k1 || k2) || (l1 || l2)) && !(s1 || s2) then (30:ℚ)
       else if ((k1 || k2) || (l1 || l2)) && (s1 || s2) then 20 else 0) := by
  cases k1 <;> cases k2 <;> cases l1 <;> cases l2 <;> cases s1 <;> cases s2 <;>
    with_unfolding_all decide

/-- The two branch values of the bonus and its floor at 0. -/
lemma competitor_bonus_eq (title snippet : Str) :
    calculate_competitor_bonus title snippet =
      (let combined := pyLower (title ++ lc " " ++ snippet)
       let hasComp := (isSubstr (lc "kt") combined || isSubstr (lc "kt-") combined) ||
         (isSubstr (lc "lgu+") combined || isSubstr (lc "lg유플러스") combined)
       let hasOwn := isSubstr (lc "skt") combined || isSubstr (lc "sk텔레콤") combined
       if hasComp && !hasOwn then 30 else if hasComp && hasOwn then 20 else 0) := by
  unfold calculate_competitor_bonus
  exact bonus_arith _ _ _ _ _ _

lemma competitor_bonus_nonneg (title snippet : Str) :
    0 ≤ calculate_competitor_bonus title snippet := by
  unfold calculate_competitor_bonus
  rw [pyMax_eq_max]
  exact le_max_right _ _

lemma competitor_bonus_le_30 (title snippet : Str) :
    calculate_competitor_bonus title snippet ≤ 30 := by
  rw [competitor_bonus_eq]
  dsimp only
  split
  · norm_num
  · split <;> norm_num

/-- C7: `calculate_competitor_bonus` returns a value in [0, 30]: 30 when the
lower-cased title+snippet mentions a competitor brand (KT, incl. the
hyphenated variant, or LGU+/LG유플러스) without the own brand (SKT/SK텔레콤),
20 when the own brand is also mentioned, floored at 0, and 0 when no
competitor brand is mentioned. -/
theorem C7_competitor_bonus_range (title snippet : Str) :
    0 ≤ calculate_competitor_bonus title snippet ∧
    calculate_competitor_bonus title snippet ≤ 30 ∧
    calculate_competitor_bonus title snippet =
      (let combined := pyLower (title ++ lc " " ++ snippet)
       let hasComp := (isSubstr (lc "kt") combined || isSubstr (lc "kt-") combined) ||
         (isSubstr (lc "lgu+") combined || isSubstr (lc "lg유플러스") combined)
       let hasOwn := isSubstr (lc "skt") combined || isSubstr (lc "sk텔레콤") combined
       if hasComp && !hasOwn then 30 else if hasComp && hasOwn then 20 else 0) :=
  ⟨competitor_bonus_nonneg title snippet, competitor_bonus_le_30 title snippet,
    competitor_bonus_eq title snippet⟩

example : calculate_competitor_bonus (lc "KT, 해외 로밍 요금제") (lc "") = 30 := by
  with_unfolding_all decide

example : calculate_competitor_bonus (lc "SKT, 스타링크") (lc "") = 20 := by
  with_unfolding_all decide

example : calculate_competitor_bonus (lc "로밍 후기") (lc "") = 0 := by
  with_unfolding_all decide

/-- `SmartFilter.CORE_KEYWORDS` (src/smart_filter.py:18). -/
def CORE_KEYWORDS : List (Str × ℚ) :=
  [(lc "로밍", 10), (lc "eSIM", 10), (lc "esim", 8), (lc "SKT 바로", 15),
   (lc "도시락 eSIM", 12), (lc "말톡", 10), (lc "유심사", 10), (lc "이지에심", 10),
   (lc "핀다이렉트", 10)]

/-- `SmartFilter.SECONDARY_KEYWORDS` (src/smart_filter.py:31). -/
def SECONDARY_KEYWORDS : List (Str × ℚ) :=
  [(lc "KT", 8), (lc "LGU+", 8), (lc "LG유플러스", 8), (lc "스타링크", 7),
   (lc "5G SA", 7), (lc "데이터 로밍", 9), (lc "해외 데이터", 8), (lc "여행 SIM", 8)]

/-- Contribution of one core keyword: `min(count, 3) * weight` when present. -/
def coreTerm (combined : Str) (p : Str × ℚ) : ℚ :=
  let c := countSub (pyLower p.1) combined
  if 0 < c then ((min c 3 : ℕ) : ℚ) * p.2 else 0

/-- Contribution of one secondary keyword:
`min(count, 2) * weight * 0.7` when present. -/
def secondaryTerm (combined : Str) (p : Str × ℚ) : ℚ :=
  let c := countSub (pyLower p.1) combined
  if 0 < c then ((min c 2 : ℕ) : ℚ) * p.2 * (7/10) else 0

/-- `SmartFilter.calculate_keyword_density_score` (src/smart_filter.py:85). -/
def calculate_keyword_density_score (title snippet : Str) : ℚ :=
  let combined := pyLower (title ++ lc " " ++ snippet)
  let text_length := combined.length
  if text_length = 0 then 0
  else
    let total :=
      (CORE_KEYWORDS.map (coreTerm combined)).sum +
        (SECONDARY_KEYWORDS.map (secondaryTerm combined)).sum
    pyMin (total / (text_length : ℚ) * 500) 100

/-- `SmartFilter.SOURCE_CREDIBILITY` without its `"default"` entry, in the
source's (insertion) order; the loop in the source skips the `"default"` key
(src/smart_filter.py:56,120). -/
def SOURCE_CREDIBILITY : List (Str × ℚ) :=
  [(lc "yna.co.kr", 100), (lc "newsis.com", 95), (lc "news1.kr", 95),
   (lc "hankyung.com", 95), (lc "mk.co.kr", 95), (lc "mt.co.kr", 95),
   (lc "zdnet.co.kr", 90), (lc "bloter.net", 90), (lc "etnews.com", 90),
   (lc "news.naver.com", 85), (lc "v.daum.net", 85)]

/-- `SmartFilter.BLOG_PATTERNS` (src/smart_filter.py:76). -/
def BLOG_PATTERNS : List Str := [lc "blog.naver.com", lc "tistory.com", lc "brunch.co.kr"]

/-- `SmartFilter.CAFE_PATTERNS` (src/smart_filter.py:77). -/
def CAFE_PATTERNS : List Str := [lc "cafe.naver.com", lc "cafe.daum.net"]

/-- `SmartFilter.COMMUNITY_PATTERNS` (src/smart_filter.py:80). -/
def COMMUNITY_PATTERNS : List Str :=
  [lc "ppomppu.co.kr", lc "clien.net", lc "theqoo.net", lc "fmkorea.com",
   lc "ruliweb.com", lc "instiz.net", lc "dcinside.com"]

/-- First matching domain of the credibility table (the `for domain, score`
loop in src/smart_filter.py:120). -/
def findDomainScore (link : Str) : List (Str × ℚ) → Option ℚ
  | [] => none
  | p :: rest => if isSubstr p.1 link then some p.2 else findDomainScore link rest

/-- `SmartFilter.calculate_source_credibility` (src/smart_filter.py:115). -/
def calculate_source_credibility (link : Str) : ℚ :=
  match findDomainScore link SOURCE_CREDIBILITY with
  | some score => score
  | none =>
    if (BLOG_PATTERNS ++ CAFE_PATTERNS).any (fun pat => isSubstr pat link) then 60
    else if COMMUNITY_PATTERNS.any (fun pat => isSubstr pat link) then 40
    else 60

/-- The five-bucket age map of `calculate_freshness_score`
(src/smart_filter.py:163). -/
def freshness_bucket (hours_ago : ℚ) : ℚ :=
  if hours_ago ≤ 6 then 100
  else if hours_ago ≤ 12 then 80
  else if hours_ago ≤ 24 then 60
  else if hours_ago ≤ 48 then 40
  else 20

/-- `SmartFilter.calculate_freshness_score` (src/smart_filter.py:136).
`parseHours` abstracts the external timestamp parsing plus
`(now - pub_date)` conversion to hours: it returns the hours elapsed since
publication, or `none` when the dateutil / strptime / RFC-2822 parse raises
(the `except` branch of the source).  A falsy `published` (absent or empty
string) short-circuits to 50 before parsing. -/
def calculate_freshness_score (parseHours : Str → Option ℚ) (published : Option Str) : ℚ :=
  match published with
  | none => 50
  | some s =>
    if s = [] then 50
    else
      match parseHours s with
      | none => 50
      | some hours_ago => freshness_bucket hours_ago

/-- `SmartFilter.TELECOM_CONTEXT` (src/smart_filter.py:50). -/
def TELECOM_CONTEXT : List Str :=
  [lc "통신", lc "이동통신", lc "요금제", lc "데이터", lc "네트워크",
   lc "속도", lc "품질", lc "커버리지", lc "해외", lc "여행", lc "출국"]

/-- `strong_game_signals` (src/smart_filter.py:239). -/
def strong_game_signals : List Str :=
  [lc "리그오브레전드", lc "롤드컵", lc "롤체전", lc "LoL", lc "PUBG", lc "배그",
   lc "MMORPG", lc "서버 이동", lc "소환사의 협곡"]

/-- The game-context words used for the "롤" neighbour check
(src/smart_filter.py:267). -/
def rollGameCtx : List Str := [lc "챔피언", lc "티어", lc "랭크", lc "게임"]

/-- One step of the "롤" word scan: does this word contain "롤" with a
game-context word among the joined neighbouring words? -/
def rollWordHit (prev : Option Str) (w : Str) (next : Option Str) : Bool :=
  if isSubstr (lc "롤") w then
    let context_words :=
      (match prev with | some p => [p] | none => []) ++
        (match next with | some n => [n] | none => [])
    let context := joinSpace context_words
    rollGameCtx.any (fun g => isSubstr g context)
  else false

/-- The `for i, word in enumerate(words)` loop of `is_game_related`
(src/smart_filter.py:255): scan each word with its immediate neighbours. -/
def rollScan (prev : Option Str) : List Str → Bool
  | [] => false
  | w :: rest => rollWordHit prev w rest.head? || rollScan (some w) rest

/-- `SmartFilter.is_game_related` (src/smart_filter.py:232): a strong game
signal with no telecom-context word, or the homonym "롤" with game-context
neighbouring words. -/
def is_game_related (title snippet : Str) : Bool :=
  let combined := pyLower (title ++ lc " " ++ snippet)
  (strong_game_signals.any (fun signal =>
      isSubstr (pyLower signal) combined &&
        !(TELECOM_CONTEXT.any (fun kw => isSubstr kw combined)))) ||
    (isSubstr (lc "롤") combined && rollScan none (pySplit combined))

/-- The weighted combination shared verbatim by
`calculate_relevance_score` (src/smart_filter.py:303) and
`should_include_for_ai` (src/smart_filter.py:350):
`keyword*0.4 + source*0.3 + freshness*0.2 + competitorBonus*0.1`. -/
def weightedTotal (parseHours : Str → Option ℚ) (a : Article) : ℚ :=
  calculate_keyword_density_score a.title a.snippet * (4/10) +
    calculate_source_credibility a.link * (3/10) +
    calculate_freshness_score parseHours a.published * (2/10) +
    calculate_competitor_bonus a.title a.snippet * (1/10)

/-- `SmartFilter.calculate_relevance_score` (src/smart_filter.py:272). -/
def calculate_relevance_score (parseHours : Str → Option ℚ) (a : Article) : ℚ :=
  if is_game_related a.title a.snippet then 0
  else pyMin (weightedTotal parseHours a) 100

/-- Python `round(q)` to an integer: round half to even. -/
def pyRoundInt (q : ℚ) : ℤ :=
  let f := ⌊q⌋
  let r := q - (f : ℚ)
  if r < 1/2 then f
  else if (1:ℚ)/2 < r then f + 1
  else if f % 2 = 0 then f else f + 1

/-- Python `round(q, 2)`. -/
def round2 (q : ℚ) : ℚ := (pyRoundInt (q * 100) : ℚ) / 100

/-- Result of `SmartFilter.should_include_for_ai`: the returned boolean plus
the `"filtered"` and `"score"` entries of the info dict (the free-text
`"reason"`/`"details"` entries are not modelled). -/
structure FilterDecision where
  included : Bool
  filtered : Bool
  score : ℚ
deriving Repr, DecidableEq

/-- `SmartFilter.should_include_for_ai` (src/smart_filter.py:319); the
Python default for `threshold` is 30. -/
def should_include_for_ai (parseHours : Str → Option ℚ) (a : Article) (threshold : ℚ) :
    FilterDecision :=
  if is_game_related a.title a.snippet then
    { included := false, filtered := true, score := 0 }
  else
    let total_score := pyMin (weightedTotal parseHours a) 100
    let is_competitor :=
      [lc "kt", lc "lgu+", lc "lg유플러스"].any (fun kw => isSubstr kw (pyLower a.title))
    let adjusted_threshold := if is_competitor then (20 : ℚ) else threshold
    if adjusted_threshold ≤ total_score then
      { included := true, filtered := false, score := round2 total_score }
    else
      { included := false, filtered := true, score := round2 total_score }

/-! ## CategoryClassifier (src/news_collector.py) -/

/-- The category labels returned by `CategoryClassifier.classify_article`. -/
inductive Category where
  | market_culture
  | global_trend
  | competitors
  | esim_products
  | voc_roaming
  | voc_esim
  | other
deriving Repr, DecidableEq

/-- `CategoryClassifier.CATEGORY_KEYWORDS` (src/news_collector.py:21). -/
def CATEGORY_KEYWORDS : Category → List Str
  | .market_culture =>
    [lc "입국자", lc "출국자", lc "출입국자", lc "입국자수", lc "출국자수",
     lc "K-POP", lc "케이팝", lc "한류", lc "한국 여행", lc "일본 여행", lc "중국 여행",
     lc "베트남 여행", lc "필리핀 여행", lc "해외 여행객", lc "여행객수", lc "관광객"]
  | .global_trend => []
  | .competitors =>
    [lc "KT 로밍", lc "KT 데이터", lc "KT 로밍 요금제", lc "kt 로밍", lc "kt 데이터",
     lc "LGU+ 로밍", lc "LG유플러스 로밍", lc "lgu+ 로밍", lc "lg유플러스",
     lc "KT 통신", lc "LGU+ 통신"]
  | .esim_products =>
    [lc "도시락 esim", lc "도시락이심", lc "도시락 프로모션", lc "도시락 할인",
     lc "말톡 esim", lc "말톡이심", lc "말톡 프로모션", lc "말톡 할인",
     lc "유심사", lc "이지이심", lc "핀다이렉트", lc "eSIM 프로모션", lc "esim 프로모션"]
  | .voc_roaming =>
    [lc "로밍 후기", lc "로밍 리뷰", lc "로밍 추천", lc "로밍 재구매",
     lc "로밍 사용기", lc "로밍 사용법", lc "로밍 추천"]
  | .voc_esim =>
    [lc "eSIM 후기", lc "esim 후기", lc "eSIM 리뷰", lc "esim 리뷰",
     lc "eSIM 추천", lc "esim 추천", lc "eSIM 재구매", lc "esim 재구매",
     lc "도시락 후기", lc "말톡 후기", lc "유심사 후기", lc "이지이심 후기"]
  | .other => []

/-- `priority_order` in `classify_article` (src/news_collector.py:69). -/
def priority_order : List Category :=
  [.competitors, .voc_roaming, .esim_products, .voc_esim, .market_culture]

/-- The `for category in priority_order` loop: first category with any
keyword substring match, else `other` (src/news_collector.py:71). -/
def classifyLoop (combined : Str) : List Category → Category
  | [] => .other
  | c :: rest =>
    if (CATEGORY_KEYWORDS c).any (fun keyword => isSubstr (pyLower keyword) combined) then c
    else classifyLoop combined rest

/-- `CategoryClassifier.classify_article` (src/news_collector.py:51). -/
def classify_article (a : Article) : Category :=
  let combined := pyLower a.title ++ lc " " ++ pyLower a.snippet
  if a.type = lc "global" then .global_trend
  else classifyLoop combined priority_order

/-- The classifier as described by the spec's words (§4.3): a `global`
record short-circuits to `global_trend`; otherwise the first category in the
fixed priority order `competitors → voc_roaming → esim_products → voc_esim
→ market_culture` whose keyword set has a substring match in the lower-cased
title+snippet is returned, and `other` when none matches. -/
def classifySpec (a : Article) : Category :=
  if a.type = lc "global" then .global_trend
  else
    let combined := pyLower a.title ++ lc " " ++ pyLower a.snippet
    match priority_order.find?
        (fun c => (CATEGORY_KEYWORDS c).any (fun kw => isSubstr (pyLower kw) combined)) with
    | some c => c
    | none => .other

/-! ## Validator and Deduplicator (src/news_collector.py, src/config.py) -/

/-- `BLACKLIST_DOMAINS` (src/config.py). -/
def BLACKLIST_DOMAINS : List Str :=
  [lc "list.php", lc "search", lc "category", lc "tag", lc "bbs/board.php",
   lc "main.php", lc "/index", lc "view_all", lc "login", lc "deal", lc "promo",
   lc "membership", lc "profile", lc "attendance"]

/-- `EXCLUDED_KEYWORDS` (src/config.py). -/
def EXCLUDED_KEYWORDS : List Str :=
  [lc "game", lc "게임", lc "게이밍", lc "롤", lc "LoL", lc "배그", lc "RPG",
   lc "MMORPG", lc "서버 로밍", lc "Zone", lc "리그오브레전드", lc "PUBG",
   lc "아이템", lc "서버이동", lc "던파", lc "메이플",
   lc "트래블로그", lc "트래블월렛", lc "환전", lc "수수료", lc "이벤트",
   lc "광고", lc "지급", lc "쿠폰", lc "당첨", lc "사전예약", lc "카드", lc "적금"]

/-- `NewsCollector.validate_article` (src/news_collector.py:190): `none`
models the Python `return None` rejection. -/
def validate_article (a : Article) : Option Article :=
  let link := a.link
  let title := pyLower a.title
  let snippet := pyLower a.snippet
  if BLACKLIST_DOMAINS.any (fun blocked => isSubstr blocked link) then none
  else
    let combined_text := title ++ lc " " ++ snippet
    if EXCLUDED_KEYWORDS.any (fun bad => isSubstr (pyLower bad) combined_text) then none
    else if EXCLUDED_KEYWORDS.any (fun bad => isSubstr (pyLower bad) (pyLower link)) then none
    else some a

/-- The normalized title key for deduplication (src/news_collector.py:230):
remove spaces, strip `<b>`, `</b>`, `&quot;`, lower-case. -/
def cleanTitleKey (t : Str) : Str :=
  pyLower (replaceSub (lc "&quot;") []
    (replaceSub (lc "</b>") [] (replaceSub (lc "<b>") [] (replaceSub (lc " ") [] t))))

/-- The title/snippet display sanitization applied to surviving records
(src/news_collector.py:238): strip `<b>`/`</b>`, decode `&quot;`, `&amp;`,
`&lt;`, `&gt;`. -/
def sanitizeText (t : Str) : Str :=
  replaceSub (lc "&gt;") (lc ">")
    (replaceSub (lc "&lt;") (lc "<")
      (replaceSub (lc "&amp;") (lc "&")
        (replaceSub (lc "&quot;") (lc "\"")
          (replaceSub (lc "</b>") [] (replaceSub (lc "<b>") [] t)))))

/-- The loop of `NewsCollector.deduplicate` (src/news_collector.py:228) with
the two `seen` sets made explicit. -/
def dedupGo (seen_titles seen_links : List Str) : List Article → List Article
  | [] => []
  | a :: rest =>
    let clean_title := cleanTitleKey a.title
    if seen_titles.contains clean_title then dedupGo seen_titles seen_links rest
    else if seen_links.contains a.link then dedupGo seen_titles seen_links rest
    else
      { a with title := sanitizeText a.title, snippet := sanitizeText a.snippet } ::
        dedupGo (clean_title :: seen_titles) (a.link :: seen_links) rest

/-- `NewsCollector.deduplicate` (src/news_collector.py:222). -/
def deduplicate (articles : List Article) : List Article := dedupGo [] [] articles

/-! ## Helper lemmas about the sub-scores -/

lemma coreTerm_nonneg (combined : Str) (p : Str × ℚ) (hp : p ∈ CORE_KEYWORDS) :
    0 ≤ coreTerm combined p := by
  unfold coreTerm
  dsimp only
  split
  · refine mul_nonneg (Nat.cast_nonneg _) ?_
    fin_cases hp <;> norm_num
  · exact le_rfl

lemma secondaryTerm_nonneg (combined : Str) (p : Str × ℚ) (hp : p ∈ SECONDARY_KEYWORDS) :
    0 ≤ secondaryTerm combined p := by
  unfold secondaryTerm
  dsimp only
  split
  · refine mul_nonneg (mul_nonneg (Nat.cast_nonneg _) ?_) (by norm_num)
    fin_cases hp <;> norm_num
  · exact le_rfl

lemma keyword_density_nonneg (t s : Str) : 0 ≤ calculate_keyword_density_score t s := by
  unfold calculate_keyword_density_score
  dsimp only
  split
  · exact le_rfl
  · rw [pyMin_eq_min]
    refine le_min ?_ (by norm_num)
    refine mul_nonneg (div_nonneg ?_ (Nat.cast_nonneg _)) (by norm_num)
    refine add_nonneg (List.sum_nonneg ?_) (List.sum_nonneg ?_)
    · intro x hx
      obtain ⟨p, hp, rfl⟩ := List.mem_map.1 hx
      exact coreTerm_nonneg _ p hp
    · intro x hx
      obtain ⟨p, hp, rfl⟩ := List.mem_map.1 hx
      exact secondaryTerm_nonneg _ p hp

lemma keyword_density_le_100 (t s : Str) : calculate_keyword_density_score t s ≤ 100 := by
  unfold calculate_keyword_density_score
  dsimp only
  split
  · norm_num
  · rw [pyMin_eq_min]
    exact min_le_right _ _

lemma findDomainScore_mem (link : Str) (ps : List (Str × ℚ)) (v : ℚ)
    (h : findDomainScore link ps = some v) : v ∈ ps.map Prod.snd := by
  induction ps with
  | nil => simp [findDomainScore] at h
  | cons p rest ih =>
    rw [findDomainScore] at h
    split at h
    · simp only [Option.some.injEq] at h
      simp [← h]
    · simpa using Or.inr (List.mem_map.1 (ih h))

lemma source_credibility_mem (link : Str) :
    calculate_source_credibility link ∈ ([40, 60, 85, 90, 95, 100] : List ℚ) := by
  unfold calculate_source_credibility
  rcases h : findDomainScore link SOURCE_CREDIBILITY with _ | v
  · dsimp only
    split_ifs <;> simp
  · have hv := findDomainScore_mem link _ v h
    unfold SOURCE_CREDIBILITY at hv
    dsimp only
    simp only [List.map_cons, List.map_nil, List.mem_cons, List.not_mem_nil, or_false] at hv
    rcases hv with h' | h' | h' | h' | h' | h' | h' | h' | h' | h' | h' <;> simp [h']

lemma source_credibility_ge_40 (link : Str) : 40 ≤ calculate_source_credibility link := by
  have h := source_credibility_mem link
  simp only [List.mem_cons, List.not_mem_nil, or_false] at h
  rcases h with h | h | h | h | h | h <;> rw [h] <;> norm_num

lemma source_credibility_le_100 (link : Str) : calculate_source_credibility link ≤ 100 := by
  have h := source_credibility_mem link
  simp only [List.mem_cons, List.not_mem_nil, or_false] at h
  rcases h with h | h | h | h | h | h <;> rw [h] <;> norm_num

lemma freshness_mem (parse : Str → Option ℚ) (pub : Option Str) :
    calculate_freshness_score parse pub ∈ ([20, 40, 50, 60, 80, 100] : List ℚ) := by
  unfold calculate_freshness_score freshness_bucket
  rcases pub with _ | s
  · simp
  · dsimp only
    split
    · simp
    · rcases hps : parse s with _ | h
      · simp
      · dsimp only
        split_ifs <;> simp

lemma freshness_ge_20 (parse : Str → Option ℚ) (pub : Option Str) :
    20 ≤ calculate_freshness_score parse pub := by
  have h := freshness_mem parse pub
  simp only [List.mem_cons, List.not_mem_nil, or_false] at h
  rcases h with h | h | h | h | h | h <;> rw [h] <;> norm_num

lemma freshness_le_100 (parse : Str → Option ℚ) (pub : Option Str) :
    calculate_freshness_score parse pub ≤ 100 := by
  have h := freshness_mem parse pub
  simp only [List.mem_cons, List.not_mem_nil, or_false] at h
  rcases h with h | h | h | h | h | h <;> rw [h] <;> norm_num

lemma weightedTotal_ge_16 (parse : Str → Option ℚ) (a : Article) :
    16 ≤ weightedTotal parse a := by
  unfold weightedTotal
  have hk := keyword_density_nonneg a.title a.snippet
  have hs := source_credibility_ge_40 a.link
  have hf := freshness_ge_20 parse a.published
  have hb := competitor_bonus_nonneg a.title a.snippet
  linarith

lemma weightedTotal_nonneg (parse : Str → Option ℚ) (a : Article) :
    0 ≤ weightedTotal parse a :=
  le_trans (by norm_num) (weightedTotal_ge_16 parse a)

lemma pyRoundInt_nonneg (q : ℚ) (h : 0 ≤ q) : 0 ≤ pyRoundInt q := by
  unfold pyRoundInt
  have hf : (0:ℤ) ≤ ⌊q⌋ := Int.le_floor.2 (by exact_mod_cast h)
  dsimp only
  split_ifs <;> omega

lemma pyRoundInt_le (q : ℚ) (n : ℤ) (h : q ≤ (n:ℚ)) : pyRoundInt q ≤ n := by
  unfold pyRoundInt
  have hf : ⌊q⌋ ≤ n := by
    have := Int.floor_le_floor h
    simpa using this
  dsimp only
  split_ifs with h1 h2 h3
  · exact hf
  · have hlt : (⌊q⌋ : ℚ) < (n : ℚ) := by
      have := Int.floor_le q
      linarith
    have : ⌊q⌋ < n := by exact_mod_cast hlt
    omega
  · exact hf
  · have hlt : (⌊q⌋ : ℚ) < (n : ℚ) := by
      have := Int.floor_le q
      have h2' : (1:ℚ)/2 ≤ q - (⌊q⌋:ℚ) := le_of_not_lt h1
      linarith
    have : ⌊q⌋ < n := by exact_mod_cast hlt
    omega

lemma round2_bounds (q : ℚ) (h0 : 0 ≤ q) (h1 : q ≤ 100) :
    0 ≤ round2 q ∧ round2 q ≤ 100 := by
  unfold round2
  constructor
  · have := pyRoundInt_nonneg (q * 100) (by linarith)
    positivity
  · have hle : pyRoundInt (q * 100) ≤ (10000 : ℤ) := by
      refine pyRoundInt_le _ _ ?_
      push_cast
      linarith
    rw [div_le_iff₀ (by norm_num : (0:ℚ) < 100)]
    calc ((pyRoundInt (q * 100) : ℚ)) ≤ ((10000 : ℤ) : ℚ) := by exact_mod_cast hle
    _ = 100 * 100 := by norm_num

/-- The `is_competitor` title test of `should_include_for_ai`
(src/smart_filter.py:359). -/
def competitorTitle (title : Str) : Bool :=
  [lc "kt", lc "lgu+", lc "lg유플러스"].any (fun kw => isSubstr kw (pyLower title))

lemma relevance_nongame (parse : Str → Option ℚ) (a : Article)
    (h : is_game_related a.title a.snippet = false) :
    calculate_relevance_score parse a = pyMin (weightedTotal parse a) 100 := by
  unfold calculate_relevance_score
  rw [if_neg (by simp [h])]

lemma shouldInclude_score_eq (parse : Str → Option ℚ) (a : Article) (t : ℚ)
    (h : is_game_related a.title a.snippet = false) :
    (should_include_for_ai parse a t).score =
      round2 (pyMin (weightedTotal parse a) 100) := by
  unfold should_include_for_ai
  rw [if_neg (by simp [h])]
  dsimp only
  split_ifs <;> rfl

/-! ## Claim theorems -/

/-- C1: every record flagged game-related by `is_game_related` gets
relevance score 0 from `calculate_relevance_score`, and
`should_include_for_ai` excludes it with reported score 0, for every
threshold value. -/
theorem C1_game_suppression (parse : Str → Option ℚ) (a : Article) (threshold : ℚ)
    (hg : is_game_related a.title a.snippet = true) :
    calculate_relevance_score parse a = 0 ∧
    (should_include_for_ai parse a threshold).included = false ∧
    (should_include_for_ai parse a threshold).score = 0 := by
  unfold calculate_relevance_score should_include_for_ai
  rw [hg]
  simp

/-- Concrete instance of C1: a pure LoL article (no telecom context) is
game-flagged and suppressed at threshold 30. -/
theorem C1_game_suppression_witness :
    is_game_related (lc "리그오브레전드 롤드컵 개막") (lc "챔피언 티어 정리") = true ∧
    (calculate_relevance_score (fun _ => none)
        { title := lc "리그오브레전드 롤드컵 개막", snippet := lc "챔피언 티어 정리",
          link := [], source := [], published := none, type := lc "domestic" } = 0 ∧
      (should_include_for_ai (fun _ => none)
          { title := lc "리그오브레전드 롤드컵 개막", snippet := lc "챔피언 티어 정리",
            link := [], source := [], published := none, type := lc "domestic" } 30).included =
        false) := by
  refine ⟨by with_unfolding_all decide, ?_, ?_⟩
  · exact (C1_game_suppression (fun _ => none) _ 30 (by with_unfolding_all decide)).1
  · exact (C1_game_suppression (fun _ => none) _ 30 (by with_unfolding_all decide)).2.1

lemma shouldInclude_included_iff (parse : Str → Option ℚ) (a : Article) (threshold : ℚ) :
    (should_include_for_ai parse a threshold).included = true ↔
      (is_game_related a.title a.snippet = false ∧
        (if competitorTitle a.title then (20:ℚ) else threshold) ≤
          pyMin (weightedTotal parse a) 100) := by
  unfold should_include_for_ai competitorTitle
  dsimp only
  split_ifs <;> simp_all

/-- C2: `should_include_for_ai` admits a record iff it is not game-flagged
and its total score reaches the effective threshold, which is 20 when the
title contains a competitor brand (kt / lgu+ / lg유플러스) and exactly the
caller-supplied value otherwise. -/
theorem C2_threshold_asymmetry (parse : Str → Option ℚ) (a : Article) (threshold : ℚ) :
    (should_include_for_ai parse a threshold).included = true ↔
      (is_game_related a.title a.snippet = false ∧
        (if competitorTitle a.title then (20:ℚ) else threshold) ≤
          pyMin (weightedTotal parse a) 100) :=
  shouldInclude_included_iff parse a threshold

/-- C5: the total produced by `calculate_relevance_score` and the score
reported by `should_include_for_ai` always lie in [0, 100], and for
non-game records the total equals the weighted combination
keyword*0.4 + source*0.3 + freshness*0.2 + competitorBonus*0.1 clamped to
[0, 100]. -/
theorem C5_score_bounds (parse : Str → Option ℚ) (a : Article) (threshold : ℚ) :
    (0 ≤ calculate_relevance_score parse a ∧ calculate_relevance_score parse a ≤ 100) ∧
    (0 ≤ (should_include_for_ai parse a threshold).score ∧
      (should_include_for_ai parse a threshold).score ≤ 100) ∧
    (is_game_related a.title a.snippet = false →
      calculate_relevance_score parse a =
        pyMax (pyMin (weightedTotal parse a) 100) 0) := by
  have h16 : 16 ≤ weightedTotal parse a := weightedTotal_ge_16 parse a
  have hmin0 : 0 ≤ pyMin (weightedTotal parse a) 100 := by
    rw [pyMin_eq_min]
    exact le_min (by linarith) (by norm_num)
  have hmin100 : pyMin (weightedTotal parse a) 100 ≤ 100 := by
    rw [pyMin_eq_min]
    exact min_le_right _ _
  have hround := round2_bounds _ hmin0 hmin100
  by_cases hg : is_game_related a.title a.snippet = true
  · have e1 : calculate_relevance_score parse a = 0 := by
      unfold calculate_relevance_score
      rw [if_pos hg]
    have e2 : should_include_for_ai parse a threshold =
        { included := false, filtered := true, score := 0 } := by
      unfold should_include_for_ai
      rw [if_pos hg]
    rw [e1, e2]
    refine ⟨⟨le_rfl, by norm_num⟩, ⟨le_rfl, by norm_num⟩, fun h => ?_⟩
    exact absurd hg (by simp [h])
  · have hg' : is_game_related a.title a.snippet = false := by simpa using hg
    rw [relevance_nongame parse a hg', shouldInclude_score_eq parse a threshold hg']
    exact ⟨⟨hmin0, hmin100⟩, hround, fun _ => by
      rw [pyMax_eq_max]
      exact (max_eq_left hmin0).symm⟩

/-- Concrete instance of C5: the clamp equation evaluated on a non-game
record. -/
theorem C5_score_bounds_witness :
    0 ≤ calculate_relevance_score (fun _ => none)
        { title := lc "로밍 요금제", snippet := [], link := [], source := [],
          published := none, type := lc "domestic" } ∧
    calculate_relevance_score (fun _ => none)
        { title := lc "로밍 요금제", snippet := [], link := [], source := [],
          published := none, type := lc "domestic" } =
      pyMax (pyMin (weightedTotal (fun _ => none)
        { title := lc "로밍 요금제", snippet := [], link := [], source := [],
          published := none, type := lc "domestic" }) 100) 0 :=
  ⟨(C5_score_bounds (fun _ => none) _ 30).1.1,
    (C5_score_bounds (fun _ => none) _ 30).2.2 (by with_unfolding_all decide)⟩

/-- C8: `calculate_freshness_score` is total and never rejects by itself: a
missing/empty `published` or a failing parse yields the neutral 50, a
successful parse yields exactly the five-bucket score by elapsed hours
(≤6 → 100, ≤12 → 80, ≤24 → 60, ≤48 → 40, older → 20), and the result is
always one of the six values 20/40/50/60/80/100. -/
theorem C8_freshness_total (parse : Str → Option ℚ) (pub : Option Str) :
    calculate_freshness_score parse pub ∈ ([20, 40, 50, 60, 80, 100] : List ℚ) ∧
    (pub = none → calculate_freshness_score parse pub = 50) ∧
    (pub = some [] → calculate_freshness_score parse pub = 50) ∧
    (∀ s, pub = some s → s ≠ [] → parse s = none →
      calculate_freshness_score parse pub = 50) ∧
    (∀ s h, pub = some s → s ≠ [] → parse s = some h →
      calculate_freshness_score parse pub =
        (if h ≤ 6 then 100 else if h ≤ 12 then 80 else if h ≤ 24 then 60
         else if h ≤ 48 then 40 else 20)) := by
  refine ⟨freshness_mem parse pub, ?_, ?_, ?_, ?_⟩
  · rintro rfl
    rfl
  · rintro rfl
    rfl
  · rintro s rfl hs hp
    unfold calculate_freshness_score
    dsimp only
    rw [if_neg hs, hp]
  · rintro s h rfl hs hp
    unfold calculate_freshness_score freshness_bucket
    dsimp only
    rw [if_neg hs, hp]

/-- Concrete instances of C8: absent timestamp, failing parse and an
in-bucket parse (7 hours → 80). -/
theorem C8_freshness_total_witness :
    calculate_freshness_score (fun _ => some 7) none = 50 ∧
    calculate_freshness_score (fun _ => none) (some (lc "not a date")) = 50 ∧
    calculate_freshness_score (fun _ => some 7) (some (lc "Mon, 19 Jan 2026 12:00:00 +0900")) =
      (if (7:ℚ) ≤ 6 then 100 else if (7:ℚ) ≤ 12 then 80 else if (7:ℚ) ≤ 24 then 60
       else if (7:ℚ) ≤ 48 then 40 else 20) := by
  refine ⟨(C8_freshness_total (fun _ => some 7) none).2.1 rfl,
    (C8_freshness_total (fun _ => none) (some (lc "not a date"))).2.2.2.1
      (lc "not a date") rfl (by with_unfolding_all decide) rfl,
    (C8_freshness_total (fun _ => some 7)
        (some (lc "Mon, 19 Jan 2026 12:00:00 +0900"))).2.2.2.2
      (lc "Mon, 19 Jan 2026 12:00:00 +0900") 7 rfl (by with_unfolding_all decide) rfl⟩

/-- C9: `validate_article` either returns its input unchanged or rejects it,
and it rejects exactly when the link contains a blacklist substring, or the
lower-cased title-space-snippet concatenation contains an excluded keyword,
or the lower-cased link contains an excluded keyword. -/
theorem C9_validate_article (a : Article) :
    (validate_article a = some a ∨ validate_article a = none) ∧
    (validate_article a = none ↔
      ((∃ blocked ∈ BLACKLIST_DOMAINS, isSubstr blocked a.link = true) ∨
        (∃ bad ∈ EXCLUDED_KEYWORDS,
          isSubstr (pyLower bad) (pyLower a.title ++ lc " " ++ pyLower a.snippet) = true) ∨
        (∃ bad ∈ EXCLUDED_KEYWORDS, isSubstr (pyLower bad) (pyLower a.link) = true))) := by
  unfold validate_article
  dsimp only
  split_ifs with h1 h2 h3
  · simp only [List.any_eq_true] at h1
    exact ⟨Or.inr rfl, iff_of_true rfl (Or.inl h1)⟩
  · simp only [List.any_eq_true] at h2
    exact ⟨Or.inr rfl, iff_of_true rfl (Or.inr (Or.inl h2))⟩
  · simp only [List.any_eq_true] at h3
    exact ⟨Or.inr rfl, iff_of_true rfl (Or.inr (Or.inr h3))⟩
  · refine ⟨Or.inl rfl, iff_of_false (by simp) ?_⟩
    simp only [List.any_eq_true] at h1 h2 h3
    rintro (h | h | h)
    exacts [h1 h, h2 h, h3 h]

/-! ### C6: classification -/

lemma classifyLoop_eq_find (combined : Str) (l : List Category) :
    classifyLoop combined l =
      (match l.find?
          (fun c => (CATEGORY_KEYWORDS c).any (fun kw => isSubstr (pyLower kw) combined)) with
       | some c => c
       | none => .other) := by
  induction l with
  | nil => rfl
  | cons c rest ih =>
    rw [classifyLoop, List.find?]
    split_ifs with h
    · rw [h]
    · rw [ih]
      have : ((CATEGORY_KEYWORDS c).any fun kw => isSubstr (pyLower kw) combined) = false := by
        simpa using h
      rw [this]

/-- C6: `classify_article` returns exactly one of the seven categories,
`global`-typed records short-circuit to `global_trend` without consulting
the keyword rules, and otherwise it agrees with the spec-worded classifier
(first match over the priority order `competitors, voc_roaming,
esim_products, voc_esim, market_culture` on the lower-cased title+snippet,
`other` when nothing matches). -/
theorem C6_classify_exclusive (a : Article) :
    (classify_article a = .market_culture ∨ classify_article a = .global_trend ∨
      classify_article a = .competitors ∨ classify_article a = .esim_products ∨
      classify_article a = .voc_roaming ∨ classify_article a = .voc_esim ∨
      classify_article a = .other) ∧
    classify_article a = classifySpec a ∧
    (a.type = lc "global" → classify_article a = .global_trend) := by
  refine ⟨?_, ?_, ?_⟩
  · cases h : classify_article a <;> simp
  · unfold classify_article classifySpec
    dsimp only
    split_ifs with h
    · rfl
    · exact classifyLoop_eq_find _ _
  · intro h
    unfold classify_article
    rw [if_pos h]

/-- Concrete instance of C6: a global record classifies as `global_trend`
even though its text matches competitor keywords. -/
theorem C6_classify_exclusive_witness :
    classify_article
        { title := lc "KT 로밍 global roundup", snippet := lc "lg유플러스",
          link := [], source := [], published := none, type := lc "global" } =
      Category.global_trend :=
  (C6_classify_exclusive _).2.2 rfl

/-! ### C3, C4: deduplication at concrete failing inputs -/

/-- First record of the C3 failing input: its title is already the plain
text `a"b`. -/
def c3ArticleA : Article :=
  { title := lc "a\"b", snippet := [], link := lc "http://e.com/1", source := [],
    published := none, type := lc "domestic" }

/-- Second record of the C3 failing input: the same title but carrying the
HTML entity, `a&quot;b`, with a different link. -/
def c3ArticleB : Article :=
  { title := lc "a&quot;b", snippet := [], link := lc "http://e.com/2", source := [],
    published := none, type := lc "domestic" }

/-- C3 (evaluation at the failing input): `deduplicate` is not idempotent.
On `[c3ArticleA, c3ArticleB]` the first pass keeps both records (their
normalized title keys `a"b` and `ab` differ) but sanitizes the second title
`a&quot;b` to `a"b`; the second pass then sees two records with the same
normalized title key and drops the second, so
`deduplicate (deduplicate X) ≠ deduplicate X`. -/
theorem C3_dedupe_not_idempotent :
    (deduplicate [c3ArticleA, c3ArticleB]).length = 2 ∧
    (deduplicate (deduplicate [c3ArticleA, c3ArticleB])).length = 1 ∧
    deduplicate (deduplicate [c3ArticleA, c3ArticleB]) ≠
      deduplicate [c3ArticleA, c3ArticleB] := by
  refine ⟨?_, ?_, ?_⟩ <;> with_unfolding_all decide

/-- First record of the C4 failing input: empty link. -/
def c4ArticleA : Article :=
  { title := lc "first title", snippet := [], link := [], source := [],
    published := none, type := lc "domestic" }

/-- Second record of the C4 failing input: empty link, different title. -/
def c4ArticleB : Article :=
  { title := lc "second title", snippet := [], link := [], source := [],
    published := none, type := lc "domestic" }

/-- C4 (evaluation at the failing input): two records whose links are both
the empty string and whose normalized titles differ are nevertheless
deduplicated against each other by the link key — the empty string is added
to `seen_links` by the first record and drops the second. -/
theorem C4_empty_link_is_dedup_key :
    cleanTitleKey c4ArticleA.title ≠ cleanTitleKey c4ArticleB.title ∧
    c4ArticleA.link = [] ∧ c4ArticleB.link = [] ∧
    deduplicate [c4ArticleA, c4ArticleB] = [c4ArticleA] := by
  refine ⟨?_, rfl, rfl, ?_⟩ <;> with_unfolding_all decide

/-! ### C10: lower bound of the composite score -/

/-- The C10 counterexample record: competitor brand in the title (so the
effective threshold is 20), own brand in the snippet (bonus drops to 20),
long keyword-sparse snippet (keyword density ≈ 4.6), community link
(credibility 40) and a stale timestamp (freshness 20). -/
def c10Article : Article :=
  { title := lc "lg유플러스", snippet := lc "sk텔레콤 " ++ List.replicate 600 'x',
    link := lc "https://dcinside.com/board/1", source := lc "community",
    published := some (lc "Mon, 01 Jan 2024 00:00:00 +0900"), type := lc "domestic" }

/-- Hour parser for the C10 counterexample: the stale timestamp is about
10000 hours old. -/
def c10Parse : Str → Option ℚ := fun _ => some 10000

set_option maxHeartbeats 12000000 in
/-- C10 counterexample: a non-game record that `should_include_for_ai`
rejects at caller threshold 16 — its title contains a competitor brand, so
it is judged against the fixed threshold 20, which its total
(≈ 19.83) does not reach.  This refutes the claim's consequence that every
threshold ≤ 16 admits every non-game record. -/
theorem C10_threshold16_counterexample :
    is_game_related c10Article.title c10Article.snippet = false ∧
    competitorTitle c10Article.title = true ∧
    (should_include_for_ai c10Parse c10Article 16).included = false := by
  refine ⟨?_, ?_, ?_⟩ <;> with_unfolding_all decide

/-- C10 (amended): for every non-game record the source credibility lies in
{40,60,85,90,95,100} (so ≥ 40), freshness lies in {20,40,50,60,80,100} (so
≥ 20), keyword density and competitor bonus are non-negative, hence the
total relevance score is at least 0.3*40 + 0.2*20 = 16; consequently any
threshold ≤ 16 admits every non-game record whose title does not contain a
competitor brand (competitor-titled records are judged against the fixed
threshold 20 instead and can still be rejected). -/
theorem C10_nongame_score_floor (parse : Str → Option ℚ) (a : Article) (threshold : ℚ)
    (hg : is_game_related a.title a.snippet = false) :
    calculate_source_credibility a.link ∈ ([40, 60, 85, 90, 95, 100] : List ℚ) ∧
    40 ≤ calculate_source_credibility a.link ∧
    calculate_freshness_score parse a.published ∈ ([20, 40, 50, 60, 80, 100] : List ℚ) ∧
    20 ≤ calculate_freshness_score parse a.published ∧
    0 ≤ calculate_keyword_density_score a.title a.snippet ∧
    0 ≤ calculate_competitor_bonus a.title a.snippet ∧
    16 ≤ calculate_relevance_score parse a ∧
    (competitorTitle a.title = false → threshold ≤ 16 →
      (should_include_for_ai parse a threshold).included = true) := by
  refine ⟨source_credibility_mem _, source_credibility_ge_40 _, freshness_mem _ _,
    freshness_ge_20 _ _, keyword_density_nonneg _ _, competitor_bonus_nonneg _ _, ?_, ?_⟩
  · rw [relevance_nongame parse a hg, pyMin_eq_min]
    exact le_min (weightedTotal_ge_16 parse a) (by norm_num)
  · intro hc ht
    refine (shouldInclude_included_iff parse a threshold).2 ⟨hg, ?_⟩
    rw [hc, pyMin_eq_min]
    simp only [Bool.false_eq_true, if_false]
    exact le_min (le_trans ht (weightedTotal_ge_16 parse a)) (le_trans ht (by norm_num))

/-- Concrete instance of the amended C10: a plain roaming record with no
competitor brand in the title is admitted at threshold 16. -/
theorem C10_nongame_score_floor_witness :
    16 ≤ calculate_relevance_score (fun _ => none)
        { title := lc "로밍 안내", snippet := [], link := [], source := [],
          published := none, type := lc "domestic" } ∧
    (should_include_for_ai (fun _ => none)
        { title := lc "로밍 안내", snippet := [], link := [], source := [],
          published := none, type := lc "domestic" } 16).included = true :=
  ⟨(C10_nongame_score_floor (fun _ => none) _ 16
      (by with_unfolding_all decide)).2.2.2.2.2.2.1,
    (C10_nongame_score_floor (fun _ => none) _ 16
        (by with_unfolding_all decide)).2.2.2.2.2.2.2
      (by with_unfolding_all decide) le_rfl⟩
